import Mathlib

/-!
# Formal model of the subkoma frame-timing application

This file gives a shallow embedding, in Lean 4, of the subkoma repository:
a Wails desktop application whose Go layer (`app.go`) orchestrates a Python
video-analysis backend, with a Svelte UI (`frontend/src/App.svelte`).

The Go function `ProcessVideo` is modelled as a pure function from the
request together with an explicit environment (filesystem stat results,
subprocess outcome, environment variables) to the response it returns and
the ordered trace of filesystem/subprocess operations it performs.
Go's `encoding/json` unmarshalling into `ProcessVideoResponse` is modelled
on an abstract JSON value type, and raw byte streams (stdout/stderr of the
backend) are modelled as text paired with their parse result.

The Python analysis core (`backend/process_video.py` and its modules) is
not part of the repository snapshot; where a property concerns it, the
corresponding definition is modelled from the specification and flowchart
documents (`doc/frame_decision_flow.md`, `doc/motion_intensity_flow.md`)
and is marked `Modelled from the spec:` in its doc comment.
-/

/-! ## String helpers (list-of-characters based, mirroring Go/JS behaviour) -/

/-- Lower-case a string character by character (model of `strings.ToLower`
as used by the `contains` helper in `app.go`; ASCII suffices there). -/
def lowerStr (s : String) : String := ⟨s.toList.map Char.toLower⟩

/-- Substring test on character lists: does `sub` occur contiguously in `hay`? -/
def hasSubstr : List Char → List Char → Bool
  | [], sub => sub.isEmpty
  | h :: t, sub => List.isPrefixOf sub (h :: t) || hasSubstr t sub

/-- Model of the `contains` helper of `app.go`: case-insensitive substring test. -/
def containsCI (s sub : String) : Bool :=
  hasSubstr (lowerStr s).toList (lowerStr sub).toList

/-! ## Go path handling: `path/filepath` on Unix paths -/

/-- Split a character list into components at `'/'` separators. -/
def splitOnSlash : List Char → List (List Char)
  | [] => [[]]
  | c :: rest =>
    let r := splitOnSlash rest
    if c = '/' then [] :: r
    else
      match r with
      | [] => [[c]]
      | h :: t => (c :: h) :: t

/-- Stack-based element processing of `filepath.Clean` (Plan 9 `cleanname`):
skip empty and `.` elements, let `..` pop a non-`..` stack top (or vanish at
the root), and push everything else. -/
def cleanElems : List (List Char) → Bool → List (List Char) → List (List Char)
  | [], _, acc => acc.reverse
  | e :: rest, rooted, acc =>
    if e = [] ∨ e = ['.'] then cleanElems rest rooted acc
    else if e = ['.', '.'] then
      match acc with
      | top :: acc2 =>
        if top = ['.', '.'] then cleanElems rest rooted (['.', '.'] :: top :: acc2)
        else cleanElems rest rooted acc2
      | [] => if rooted then cleanElems rest rooted [] else cleanElems rest rooted [['.', '.']]
    else cleanElems rest rooted (e :: acc)

/-- Model of Go `filepath.Clean` for Unix paths. -/
def goClean (path : String) : String :=
  if path.toList = [] then "."
  else if path.toList.head? = some '/' then
    ⟨'/' :: List.intercalate ['/'] (cleanElems (splitOnSlash path.toList) true [])⟩
  else if List.intercalate ['/'] (cleanElems (splitOnSlash path.toList) false []) = [] then
    "."
  else ⟨List.intercalate ['/'] (cleanElems (splitOnSlash path.toList) false [])⟩

/-- Model of Go `filepath.Dir` for Unix paths: everything up to and
including the final separator, then `Clean`; `"."` when there is none. -/
def goDir (path : String) : String :=
  let l := path.toList
  let file := l.reverse.takeWhile (fun c => c != '/')
  goClean ⟨l.take (l.length - file.length)⟩

/-- Model of Go `filepath.Join` for Unix paths: join the non-empty elements
with `'/'` and `Clean` the result; empty when every element is empty. -/
def goJoin (elems : List String) : String :=
  let ne := elems.filter (fun e => e ≠ "")
  if ne = [] then "" else goClean ⟨List.intercalate ['/'] (ne.map String.toList)⟩

/-! ## JSON values and Go `encoding/json` unmarshalling into the response struct -/

/-- Abstract JSON document values. -/
inductive Json where
  | null
  | bool (b : Bool)
  | num (q : ℚ)
  | str (s : String)
  | arr (elems : List Json)
  | obj (fields : List (String × Json))

/-- Mirror of the Go struct `ProcessVideoRequest` of `app.go`. -/
structure ProcessVideoRequest where
  inputPath : String
  outputPath : String
  config : String
deriving DecidableEq

/-- Mirror of the Go struct `ProcessVideoResponse` of `app.go`
(fields in source order; the zero value of every field is `""`). -/
structure ProcessVideoResponse where
  status : String
  outputVideoPath : String
  databaseID : String
  message : String
  errorType : String
deriving DecidableEq

/-- Zero value of the Go struct `ProcessVideoResponse`. -/
def zeroResponse : ProcessVideoResponse := ⟨"", "", "", "", ""⟩

/-- Assign one JSON object field into the response struct the way Go
`encoding/json` does: keys are matched case-insensitively against the json
tags, a string value is stored, a JSON `null` is a no-op, any other value
for a known key is a type error, and unknown keys are ignored. -/
def setRespField (r : ProcessVideoResponse) (k : String) (v : Json) :
    Option ProcessVideoResponse :=
  let kl := lowerStr k
  if kl = "status" then
    match v with
    | .str s => some { r with status := s }
    | .null => some r
    | _ => none
  else if kl = "output_video_path" then
    match v with
    | .str s => some { r with outputVideoPath := s }
    | .null => some r
    | _ => none
  else if kl = "database_id" then
    match v with
    | .str s => some { r with databaseID := s }
    | .null => some r
    | _ => none
  else if kl = "message" then
    match v with
    | .str s => some { r with message := s }
    | .null => some r
    | _ => none
  else if kl = "error_type" then
    match v with
    | .str s => some { r with errorType := s }
    | .null => some r
    | _ => none
  else some r

/-- Fold the fields of a JSON object into the response struct in order
(later occurrences of a key overwrite earlier ones, as in Go). -/
def decodeRespFields : ProcessVideoResponse → List (String × Json) →
    Option ProcessVideoResponse
  | r, [] => some r
  | r, (k, v) :: rest =>
    match setRespField r k v with
    | some r2 => decodeRespFields r2 rest
    | none => none

/-- Model of Go `json.Unmarshal(bytes, &resp)` for a parsed JSON document:
an object is decoded field by field, a bare `null` leaves the zero struct,
and any other top-level value is an error. -/
def unmarshalResponse : Json → Option ProcessVideoResponse
  | .null => some zeroResponse
  | .obj fields => decodeRespFields zeroResponse fields
  | _ => none

/-! ## The subprocess boundary -/

/-- Raw bytes written by the backend on one stream: the text itself (used
for emptiness and substring tests) together with the result of parsing it
as a single JSON document (`none` when it does not parse). -/
structure RawOutput where
  text : String
  parsed : Option Json

/-- Empty stream. -/
def emptyRaw : RawOutput := ⟨"", none⟩

/-- Outcome of `cmd.Output()` in `ProcessVideo`: whether the error value was
non-nil, whether it was an `exec.ExitError` (in which case captured stderr
is available), and the two streams. -/
structure ExecResult where
  err : Bool
  isExitError : Bool
  stdout : RawOutput
  stderr : RawOutput

/-- Stderr document the failure branch of `ProcessVideo` tries to parse:
captured stderr is available only from an `ExitError`, it must be non-empty,
and `json.Unmarshal` into the response struct must succeed. -/
def stderrParsedResponse (r : ExecResult) : Option ProcessVideoResponse :=
  let sr := if r.isExitError then r.stderr else emptyRaw
  if 0 < sr.text.length then sr.parsed.bind unmarshalResponse else none

/-- Short constructor for the error responses `ProcessVideo` builds inline. -/
def errResp (etype msg : String) : ProcessVideoResponse :=
  ⟨"error", "", "", msg, etype⟩

/-- Model of the part of `ProcessVideo` (`app.go`) that runs after the
backend subprocess has been executed: the error cascade on failure
(stderr JSON first, then substring-classified errors, then generic ones)
and the stdout JSON handling on success. -/
def handleExec (r : ExecResult) : ProcessVideoResponse :=
  if r.err then
    let stderrStr := (if r.isExitError then r.stderr else emptyRaw).text
    match stderrParsedResponse r with
    | some er =>
      if er.message = "" then er
      else { er with message := "Processing failed: " ++ er.message }
    | none =>
      if 0 < stderrStr.length then
        if containsCI stderrStr "FileNotFoundError" || containsCI stderrStr "No such file" then
          errResp "FileNotFoundError"
            ("File not found during processing. Details: " ++ stderrStr)
        else if containsCI stderrStr "PermissionError" ||
            containsCI stderrStr "Permission denied" then
          errResp "PermissionError"
            ("Permission denied. Please check file permissions. Details: " ++ stderrStr)
        else if containsCI stderrStr "ModuleNotFoundError" ||
            containsCI stderrStr "ImportError" then
          errResp "DependencyError"
            ("Missing required Python dependencies. Please install requirements. Details: "
              ++ stderrStr)
        else if containsCI stderrStr "OutOfMemoryError" ||
            containsCI stderrStr "MemoryError" then
          errResp "MemoryError"
            "Insufficient memory to process the video. Try with a smaller video file or close other applications."
        else if containsCI stderrStr "cv2.error" || containsCI stderrStr "OpenCV" then
          errResp "VideoProcessingError"
            ("Video processing error. The video file may be corrupted or in an unsupported format. Details: "
              ++ stderrStr)
        else
          errResp "PythonExecutionError" ("Processing failed with error: " ++ stderrStr)
      else
        errResp "ExecutionError" "Python script execution failed."
  else
    if r.stdout.text.length = 0 then
      errResp "OutputError"
        "No output received from processing script. The process may have failed silently."
    else
      match r.stdout.parsed.bind unmarshalResponse with
      | none =>
        errResp "ParseError"
          ("Failed to parse processing results. Raw output: " ++ r.stdout.text)
      | some resp =>
        if resp.status = "" then
          errResp "ResponseError" "Invalid response format from processing script."
        else if resp.status = "success" ∧ resp.message = "" then
          { resp with message := "Video processing completed successfully." }
        else resp

/-! ## The full `ProcessVideo` flow with an explicit operation trace -/

/-- Result of one `os.Stat` call as `ProcessVideo` distinguishes it:
success, `os.IsNotExist`, or some other error. -/
inductive StatRes where
  | ok
  | notExist
  | otherErr
deriving DecidableEq

/-- Environment variables read by `ProcessVideo` (Go `os.Getenv` returns
`""` for an unset variable). -/
structure Env where
  pythonDebug : String
  pythonDebugWait : String
  pythonDebugPort : String
deriving DecidableEq

/-- External world a single `ProcessVideo` call observes: stat results for
the paths it checks, whether `os.Getwd` succeeds and what it returns,
whether `os.MkdirAll` succeeds, whether the config string is valid JSON,
and the backend subprocess outcome. -/
structure World where
  statInput : StatRes
  configParses : Bool
  getwdOk : Bool
  workingDir : String
  statScript : StatRes
  statOutDir : StatRes
  mkdirOk : Bool
  exec : ExecResult

/-- One filesystem or subprocess operation performed by `ProcessVideo`. -/
inductive FsOp where
  | statOp (path : String)
  | mkdirAllOp (path : String)
  | execOp (cmd : String) (args : List String)
deriving DecidableEq

/-- Does this operation modify the filesystem? Only `os.MkdirAll` does
(`os.Stat` is a read and the subprocess is accounted separately). -/
def isFsModify : FsOp → Bool
  | .mkdirAllOp _ => true
  | _ => false

/-- Argument list `ProcessVideo` builds for the backend script: the script
path, the three required flags in source order, then the debug flags gated
on the `PYTHON_DEBUG` family of environment variables. -/
def buildArgs (scriptPath : String) (req : ProcessVideoRequest) (env : Env) : List String :=
  [scriptPath, "--input", req.inputPath, "--output", req.outputPath,
    "--config", req.config]
    ++ (if env.pythonDebug = "true" then
          ["--debug"]
            ++ (if env.pythonDebugWait = "true" then ["--debug-wait"] else [])
            ++ (if env.pythonDebugPort ≠ "" then
                  ["--debug-port", env.pythonDebugPort] else [])
        else [])

/-- Final step of `ProcessVideo`: run the backend via `uv run python` and
hand the outcome to the post-execution handler. -/
def runBackend (req : ProcessVideoRequest) (w : World) (env : Env)
    (scriptPath : String) (ops : List FsOp) : ProcessVideoResponse × List FsOp :=
  (handleExec w.exec,
    ops ++ [FsOp.execOp "uv" (["run", "python"] ++ buildArgs scriptPath req env)])

/-- Model of `ProcessVideo` (`app.go`): input validation, input-file stat,
config JSON check, working-directory and script checks, output-directory
creation, then the backend subprocess. Returns the response together with
the ordered trace of filesystem/subprocess operations performed. -/
def processVideoModel (req : ProcessVideoRequest) (w : World) (env : Env) :
    ProcessVideoResponse × List FsOp :=
  if req.inputPath = "" then
    (errResp "ValidationError" "Input video path is required. Please select a video file.", [])
  else if req.outputPath = "" then
    (errResp "ValidationError"
      "Output path is required. Please specify where to save the processed video.", [])
  else if req.config = "" then
    (errResp "ValidationError"
      "Analysis configuration is required. Please check your parameter settings.", [])
  else
    let ops0 := [FsOp.statOp req.inputPath]
    match w.statInput with
    | .notExist =>
      (errResp "FileNotFoundError"
        ("Input video file not found: " ++ req.inputPath
          ++ ". Please check the file path and try again."), ops0)
    | .otherErr =>
      (errResp "FileAccessError"
        ("Cannot access input video file: " ++ req.inputPath ++ "."), ops0)
    | .ok =>
      if w.configParses = false then
        (errResp "ConfigurationError"
          "Invalid configuration format. Please reset parameters and try again.", ops0)
      else if w.getwdOk = false then
        (errResp "SystemError" "System error: Failed to get working directory.", ops0)
      else
        let scriptPath := goJoin [w.workingDir, "backend", "process_video.py"]
        let ops1 := ops0 ++ [FsOp.statOp scriptPath]
        if w.statScript = .notExist then
          (errResp "InstallationError"
            ("Backend processing script not found at: " ++ scriptPath
              ++ ". Please check your installation."), ops1)
        else
          let outputDir := goDir req.outputPath
          if outputDir ≠ "" then
            let ops2 := ops1 ++ [FsOp.statOp outputDir]
            if w.statOutDir = .notExist then
              if w.mkdirOk then
                runBackend req w env scriptPath (ops2 ++ [FsOp.mkdirAllOp outputDir])
              else
                (errResp "FileSystemError"
                  ("Cannot create output directory: " ++ outputDir ++ "."), ops2)
            else runBackend req w env scriptPath ops2
          else runBackend req w env scriptPath ops1

/-! ## The Svelte UI model (`frontend/src/App.svelte`) -/

/-- Mirror of the `motion_weights` object of the UI parameter state. -/
structure MotionWeights where
  displacement : ℚ
  velocity : ℚ
  acceleration : ℚ
  direction_change : ℚ
  pose_change : ℚ
deriving DecidableEq

/-- Mirror of the `parameters` object the UI serializes into the config
JSON (field set exactly as in `App.svelte`; note there is no
`smoothing_window` key). -/
structure UiParameters where
  threshold_high : ℚ
  threshold_low : ℚ
  hysteresis_margin : ℚ
  min_duration : ℚ
  smoothing_method : String
  smoothing_alpha : ℚ
  motion_weights : MotionWeights
  enable_tame_tsume : Bool
  save_keypoints : Bool
deriving DecidableEq

/-- Initial value of the UI `parameters` state (`App.svelte`, lines 11-36). -/
def uiDefaultParameters : UiParameters :=
  { threshold_high := 0.60
    threshold_low := 0.35
    hysteresis_margin := 0.05
    min_duration := 0.08
    smoothing_method := "ema"
    smoothing_alpha := 0.7
    motion_weights :=
      { displacement := 0.2
        velocity := 0.25
        acceleration := 0.2
        direction_change := 0.15
        pose_change := 0.2 }
    enable_tame_tsume := false
    save_keypoints := false }

/-- Value assigned by the UI `resetToDefaults` function (`App.svelte`). -/
def uiResetParameters : UiParameters :=
  { threshold_high := 0.60
    threshold_low := 0.35
    hysteresis_margin := 0.05
    min_duration := 0.08
    smoothing_method := "ema"
    smoothing_alpha := 0.7
    motion_weights :=
      { displacement := 0.2
        velocity := 0.25
        acceleration := 0.2
        direction_change := 0.15
        pose_change := 0.2 }
    enable_tame_tsume := false
    save_keypoints := false }

/-- Documented default analysis configuration: the record stated by the
specification (weights 0.30/0.25/0.20/0.15/0.10, thresholds 0.60/0.35,
margin 0.05, min duration 0.08, ema smoothing with alpha 0.7 and window 3)
and by the repository docs `doc/motion_intensity_flow.md` and
`doc/frame_decision_flow.md`. Kept as a separate record to compare the
code's defaults against. -/
structure DocumentedDefaults where
  motion_weights : MotionWeights
  threshold_high : ℚ
  threshold_low : ℚ
  hysteresis_margin : ℚ
  min_duration : ℚ
  smoothing_method : String
  smoothing_alpha : ℚ
  smoothing_window : ℕ
deriving DecidableEq

/-- The documented default record itself. -/
def documentedDefaultConfig : DocumentedDefaults :=
  { motion_weights :=
      { displacement := 0.30
        velocity := 0.25
        acceleration := 0.20
        direction_change := 0.15
        pose_change := 0.10 }
    threshold_high := 0.60
    threshold_low := 0.35
    hysteresis_margin := 0.05
    min_duration := 0.08
    smoothing_method := "ema"
    smoothing_alpha := 0.7
    smoothing_window := 3 }

/-- Character class of the JS regex `[^/.]` used by `runAnalysis`. -/
def extChar (c : Char) : Bool := c != '.' && c != '/'

/-- Leftmost-match search for the JS regex `\.[^/.]+$` over a character
list, as the `replace` call in `runAnalysis` performs it: returns the text
before the matched dot and the extension after it, or `none` when the
regex does not match. -/
def findExtSplit : List Char → Option (List Char × List Char)
  | [] => none
  | c :: rest =>
    if c = '.' ∧ rest ≠ [] ∧ rest.all extChar then some ([], rest)
    else
      match findExtSplit rest with
      | some (pre, ext) => some (c :: pre, ext)
      | none => none

/-- Model of the output path computed by the UI `runAnalysis` function:
`inputPath.replace(/\.[^/.]+$/, "_processed.mp4")`. -/
def runAnalysisOutputPath (inputPath : String) : String :=
  match findExtSplit inputPath.toList with
  | some (pre, _) => ⟨pre ++ "_processed.mp4".toList⟩
  | none => inputPath

/-! ## Spec-modelled analysis core

The Python analysis core (`backend/process_video.py`, `timing_logic.py`,
`calculations.py`) is referenced by `app.go`, the task list and the
contracts, but its source is not part of the repository snapshot. The
definitions below are modelled from the specification and from the
repository flowchart `doc/frame_decision_flow.md`. -/

/-- Motion state of one frame. -/
inductive MState where
  | low
  | mid
  | high
deriving DecidableEq

/-- Hysteresis classifier parameters: upper and lower thresholds and the
hysteresis margin. -/
structure HysteresisParams where
  tauH : ℚ
  tauL : ℚ
  delta : ℚ
deriving DecidableEq

/-- Default classifier parameters (threshold_high 0.60, threshold_low 0.35,
hysteresis_margin 0.05). -/
def defaultHysteresisParams : HysteresisParams :=
  { tauH := 0.60, tauL := 0.35, delta := 0.05 }

/-- Modelled from the spec: the hysteresis transition function of the
classifier (`backend/timing_logic.py` is absent from the snapshot; this
follows spec section 4.4 and the flowchart `doc/frame_decision_flow.md`).
From HIGH: below tauL - delta go LOW, below tauH - delta go MID, else stay;
from MID: at or above tauH + delta go HIGH, below tauL - delta go LOW, else
stay; from LOW: at or above tauH + delta go HIGH, at or above tauL + delta
go MID, else stay. -/
def hystStep (p : HysteresisParams) (s : MState) (mi : ℚ) : MState :=
  match s with
  | .high =>
    if mi < p.tauL - p.delta then .low
    else if mi < p.tauH - p.delta then .mid
    else .high
  | .mid =>
    if p.tauH + p.delta ≤ mi then .high
    else if mi < p.tauL - p.delta then .low
    else .mid
  | .low =>
    if p.tauH + p.delta ≤ mi then .high
    else if p.tauL + p.delta ≤ mi then .mid
    else .low

/-- Modelled from the spec: initial classification of frame 0 by the
absolute thresholds. -/
def classifyInit (p : HysteresisParams) (mi : ℚ) : MState :=
  if p.tauH ≤ mi then .high
  else if p.tauL ≤ mi then .mid
  else .low

/-- Retention band of a state: the smoothed-intensity values at which the
hysteresis step keeps that state. -/
def retentionBand (p : HysteresisParams) (s : MState) (mi : ℚ) : Prop :=
  match s with
  | .high => p.tauH - p.delta ≤ mi
  | .mid => p.tauL - p.delta ≤ mi ∧ mi < p.tauH + p.delta
  | .low => mi < p.tauL + p.delta

/-- Iterate the hysteresis step on a constant smoothed intensity. -/
def hystIter (p : HysteresisParams) (mi : ℚ) : ℕ → MState → MState
  | 0, s => s
  | n + 1, s => hystIter p mi n (hystStep p s mi)

/-! ### Config validation (spec-modelled) -/

/-- Motion-weight sum used by the sum-to-one validation. -/
def weightSum (w : MotionWeights) : ℚ :=
  w.displacement + w.velocity + w.acceleration + w.direction_change + w.pose_change

/-- Analysis configuration record of the core. -/
structure CoreConfig where
  motion_weights : MotionWeights
  threshold_high : ℚ
  threshold_low : ℚ
  hysteresis_margin : ℚ
  min_duration : ℚ
  smoothing_method : String
  smoothing_alpha : ℚ
  smoothing_window : ℕ
deriving DecidableEq

/-- Pipeline-stage fatal errors of the core (spec section 7); `ConfigError`
is not among them because it is fatal pre-pipeline. -/
inductive PipelineError where
  | inputNotFound
  | inputUnreadable
  | variableFrameRate
  | noSubjectDetected
  | shortClip
  | outputWriteError
deriving DecidableEq

/-- Fatal error kinds of one core run. -/
inductive CoreError where
  | configError
  | pipelineFailure (e : PipelineError)
deriving DecidableEq

/-- Modelled from the spec: configuration validation of the core
(`backend/process_video.py` is absent from the snapshot; this follows the
spec error table: ConfigError when the motion weights do not sum to 1.0
within a 0.01 tolerance, when the smoothing method is neither "ema" nor
"window", or when threshold_high is at most threshold_low). -/
def validateConfig (c : CoreConfig) : Option CoreError :=
  if 1/100 < |weightSum c.motion_weights - 1| then some .configError
  else if ¬ (c.smoothing_method = "ema" ∨ c.smoothing_method = "window") then
    some .configError
  else if c.threshold_high ≤ c.threshold_low then some .configError
  else none

/-- Outcome of the pipeline stage once validation has passed: an optional
fatal pipeline error and whether any output was written. -/
structure PipelineOutcome where
  failure : Option PipelineError
  wroteOutput : Bool
deriving DecidableEq

/-- Observable outcome of one core run: process exit code, whether anything
was written, and the error reported in the stderr JSON document, if any. -/
structure RunOutcome where
  exitCode : ℕ
  wroteOutput : Bool
  stderrError : Option CoreError
deriving DecidableEq

/-- Modelled from the spec: one core run. Configuration validation happens
once, before the pipeline; a validation failure is fatal pre-pipeline with
a nonzero exit code, an error JSON on stderr and nothing written. Otherwise
the pipeline outcome determines the run outcome. -/
def runCore (c : CoreConfig) (p : PipelineOutcome) : RunOutcome :=
  match validateConfig c with
  | some _ => { exitCode := 1, wroteOutput := false, stderrError := some .configError }
  | none =>
    match p.failure with
    | some e => { exitCode := 1, wroteOutput := p.wroteOutput,
                  stderrError := some (.pipelineFailure e) }
    | none => { exitCode := 0, wroteOutput := p.wroteOutput, stderrError := none }

/-! ### Frame selection (spec-modelled) -/

/-- Exposure stride of a motion state: HIGH runs are sampled on twos, MID
runs on threes, LOW runs keep every frame. -/
def stride : MState → ℕ
  | .high => 2
  | .mid => 3
  | .low => 1

/-- Modelled from the spec: FrameSelector emission for one run
(`backend/timing_logic.py` is absent from the snapshot; this follows spec
section 4.5 and the flowchart `doc/frame_decision_flow.md`). A run of
length `len` starting at source index `start` emits, for each output slot
`j < len`, the source index `start + stride * (j / stride)`: each sampled
drawing is held `stride` frames, a trailing incomplete group holds the last
drawing to the run end, and the output slot count equals the run length. -/
def emitRun (s : MState) (start len : ℕ) : List ℕ :=
  (List.range len).map (fun j => start + stride s * (j / stride s))

/-- Decompose a state sequence into maximal runs (state, length), in order. -/
def runsOf : List MState → List (MState × ℕ)
  | [] => []
  | s :: rest =>
    match runsOf rest with
    | [] => [(s, 1)]
    | (t, n) :: rs => if s = t then (s, n + 1) :: rs else (s, 1) :: (t, n) :: rs

/-- Emit all runs in order, threading the starting source index. -/
def planAux : List (MState × ℕ) → ℕ → List ℕ
  | [], _ => []
  | (s, len) :: rest, start => emitRun s start len ++ planAux rest (start + len)

/-- Modelled from the spec: the OutputPlan the FrameSelector builds from a
final state sequence. -/
def buildPlan (seq : List MState) : List ℕ := planAux (runsOf seq) 0

/-! ## Concrete fixtures used by witnesses and counterexamples -/

/-- Config with motion weights 0.3 five times (spec scenario 6). -/
def badWeightsConfig : CoreConfig :=
  { motion_weights :=
      { displacement := 0.3, velocity := 0.3, acceleration := 0.3
        direction_change := 0.3, pose_change := 0.3 }
    threshold_high := 0.60
    threshold_low := 0.35
    hysteresis_margin := 0.05
    min_duration := 0.08
    smoothing_method := "ema"
    smoothing_alpha := 0.7
    smoothing_window := 3 }

/-- Config equal to the documented defaults. -/
def defaultCoreConfig : CoreConfig :=
  { motion_weights :=
      { displacement := 0.30, velocity := 0.25, acceleration := 0.20
        direction_change := 0.15, pose_change := 0.10 }
    threshold_high := 0.60
    threshold_low := 0.35
    hysteresis_margin := 0.05
    min_duration := 0.08
    smoothing_method := "ema"
    smoothing_alpha := 0.7
    smoothing_window := 3 }

/-- Backend outcome: nonzero exit with a stderr JSON document whose status
field says "success" (a backend violating the stderr contract). -/
def badStderrExec : ExecResult :=
  { err := true
    isExitError := true
    stdout := ⟨"", none⟩
    stderr := ⟨"\x7b\x22status\x22:\x22success\x22\x7d",
               some (Json.obj [("status", Json.str "success")])⟩ }

/-- Backend outcome: exit 0 with a well-formed success document on stdout
whose message is empty. -/
def successExec : ExecResult :=
  { err := false
    isExitError := false
    stdout := ⟨"\x7b\x22status\x22:\x22success\x22,\x22output_video_path\x22:\x22/tmp/out.mp4\x22,\x22database_id\x22:\x221\x22,\x22message\x22:\x22\x22\x7d",
               some (Json.obj
                 [("status", Json.str "success"),
                  ("output_video_path", Json.str "/tmp/out.mp4"),
                  ("database_id", Json.str "1"),
                  ("message", Json.str "")])⟩
    stderr := ⟨"", none⟩ }

/-- Backend outcome: a failure that is not an `exec.ExitError`, so no
stderr is captured. -/
def plainFailExec : ExecResult := ⟨true, false, ⟨"", none⟩, ⟨"", none⟩⟩

/-- Backend outcome: nonzero exit with the contractual error JSON document
on stderr. -/
def contractStderrExec : ExecResult :=
  ⟨true, true, ⟨"", none⟩,
   ⟨"\x7b\x22status\x22:\x22error\x22,\x22error_type\x22:\x22ShortClip\x22,\x22message\x22:\x22too short\x22\x7d",
    some (Json.obj [("status", Json.str "error"),
                    ("error_type", Json.str "ShortClip"),
                    ("message", Json.str "too short")])⟩⟩

/-- Backend outcome: exit code 0 with an empty stdout. -/
def silentExec : ExecResult := ⟨false, false, ⟨"", none⟩, ⟨"", none⟩⟩

/-- Valid sample request. -/
def sampleRequest : ProcessVideoRequest :=
  ⟨"clips/scene01.mp4", "clips/out/scene01_processed.mp4", "\x7b\x7d"⟩

/-- World where everything exists except the output directory. -/
def sampleWorld : World :=
  { statInput := .ok
    configParses := true
    getwdOk := true
    workingDir := "/app"
    statScript := .ok
    statOutDir := .notExist
    mkdirOk := true
    exec := successExec }

/-- Environment with no debug variables set. -/
def quietEnv : Env := ⟨"", "", ""⟩

/-! ## Helper lemmas -/

theorem emitRun_length (s : MState) (start len : ℕ) :
    (emitRun s start len).length = len := by
  simp [emitRun]

theorem runsOf_sum (l : List MState) :
    ((runsOf l).map Prod.snd).sum = l.length := by
  induction l with
  | nil => simp [runsOf]
  | cons s rest ih =>
    cases h : runsOf rest with
    | nil =>
      rw [h] at ih
      simp only [List.map_nil, List.sum_nil] at ih
      simp only [runsOf, h, List.map_cons, List.map_nil, List.sum_cons,
        List.sum_nil, List.length_cons]
      omega
    | cons p rs =>
      obtain ⟨t, n⟩ := p
      rw [h] at ih
      simp only [List.map_cons, List.sum_cons] at ih
      by_cases hst : s = t
      · simp only [runsOf, h, if_pos hst, List.map_cons, List.sum_cons,
          List.length_cons]
        omega
      · simp only [runsOf, h, if_neg hst, List.map_cons, List.sum_cons,
          List.length_cons]
        omega

theorem planAux_length (rs : List (MState × ℕ)) (start : ℕ) :
    (planAux rs start).length = (rs.map Prod.snd).sum := by
  induction rs generalizing start with
  | nil => simp [planAux]
  | cons p rest ih =>
    obtain ⟨s, len⟩ := p
    simp [planAux, emitRun_length, ih]

theorem emitRun_bounds {x : ℕ} {s : MState} {start len : ℕ}
    (hx : x ∈ emitRun s start len) : start ≤ x ∧ x < start + len := by
  obtain ⟨j, hj, rfl⟩ := by simpa [emitRun] using hx
  have hdiv : stride s * (j / stride s) ≤ j := Nat.mul_div_le j (stride s)
  omega

theorem planAux_lb {x : ℕ} {rs : List (MState × ℕ)} {start : ℕ}
    (hx : x ∈ planAux rs start) : start ≤ x := by
  induction rs generalizing start with
  | nil => simp [planAux] at hx
  | cons p rest ih =>
    obtain ⟨s, len⟩ := p
    rw [planAux, List.mem_append] at hx
    rcases hx with h | h
    · exact (emitRun_bounds h).1
    · exact le_trans (Nat.le_add_right _ _) (ih h)

theorem emitRun_pairwise (s : MState) (start len : ℕ) :
    (emitRun s start len).Pairwise (· ≤ ·) := by
  unfold emitRun
  rw [List.pairwise_map]
  exact (List.pairwise_lt_range len).imp fun h =>
    Nat.add_le_add_left
      (Nat.mul_le_mul_left _ (Nat.div_le_div_right (le_of_lt h))) _

theorem planAux_pairwise (rs : List (MState × ℕ)) (start : ℕ) :
    (planAux rs start).Pairwise (· ≤ ·) := by
  induction rs generalizing start with
  | nil => simp [planAux]
  | cons p rest ih =>
    obtain ⟨s, len⟩ := p
    rw [planAux]
    refine List.pairwise_append.mpr ⟨emitRun_pairwise s start len, ih _, ?_⟩
    intro x hx y hy
    exact le_trans (le_of_lt (emitRun_bounds hx).2) (planAux_lb hy)

theorem hystStep_retention {p : HysteresisParams} {s : MState} {mi : ℚ}
    (hp : p.tauL ≤ p.tauH) (h : retentionBand p s mi) : hystStep p s mi = s := by
  cases s with
  | high =>
    simp only [retentionBand] at h
    simp only [hystStep]
    rw [if_neg (by linarith), if_neg (by linarith)]
  | mid =>
    obtain ⟨h1, h2⟩ := h
    simp only [hystStep]
    rw [if_neg (by linarith), if_neg (by linarith)]
  | low =>
    simp only [retentionBand] at h
    simp only [hystStep]
    rw [if_neg (by linarith), if_neg (by linarith)]

/-! ## Claim theorems -/

/-- C1: the classifier is a three-state hysteresis FSM over the smoothed
intensity. At the defaults (tauH 0.60, tauL 0.35, delta 0.05): from HIGH it
moves to LOW below 0.30 (tauL - delta), to MID below 0.55 (tauH - delta),
else stays HIGH; from MID it moves to HIGH at or above 0.65 (tauH + delta),
to LOW below 0.30, else stays MID; from LOW it moves to HIGH at or above
0.65, to MID at or above 0.40 (tauL + delta), else stays LOW — matching the
concrete thresholds of `doc/frame_decision_flow.md`. Consequently holding
the smoothed intensity constant inside a state's retention band never
changes the state, for any number of steps. -/
theorem C1_hysteresis_fsm (s : MState) (mi : ℚ) (n : ℕ)
    (h : retentionBand defaultHysteresisParams s mi) :
    (hystStep defaultHysteresisParams .high mi
       = if mi < 0.30 then .low else if mi < 0.55 then .mid else .high) ∧
    (hystStep defaultHysteresisParams .mid mi
       = if 0.65 ≤ mi then .high else if mi < 0.30 then .low else .mid) ∧
    (hystStep defaultHysteresisParams .low mi
       = if 0.65 ≤ mi then .high else if 0.40 ≤ mi then .mid else .low) ∧
    hystIter defaultHysteresisParams mi n s = s := by
  have e1 : defaultHysteresisParams.tauL - defaultHysteresisParams.delta = 0.30 := by
    norm_num [defaultHysteresisParams]
  have e2 : defaultHysteresisParams.tauH - defaultHysteresisParams.delta = 0.55 := by
    norm_num [defaultHysteresisParams]
  have e3 : defaultHysteresisParams.tauH + defaultHysteresisParams.delta = 0.65 := by
    norm_num [defaultHysteresisParams]
  have e4 : defaultHysteresisParams.tauL + defaultHysteresisParams.delta = 0.40 := by
    norm_num [defaultHysteresisParams]
  refine ⟨?_, ?_, ?_, ?_⟩
  · simp only [hystStep, e1, e2]
  · simp only [hystStep, e1, e3]
  · simp only [hystStep, e3, e4]
  · induction n with
    | zero => rfl
    | succ k ih =>
      rw [hystIter,
        hystStep_retention (by norm_num [defaultHysteresisParams]) h]
      exact ih

/-- Witness for C1: the intensity 0.5 lies in the MID retention band and
holding it for 4 steps keeps the state MID. -/
theorem C1_hysteresis_fsm_witness :
    retentionBand defaultHysteresisParams MState.mid (1/2) ∧
    hystIter defaultHysteresisParams (1/2) 4 MState.mid = MState.mid := by
  have h : retentionBand defaultHysteresisParams MState.mid (1/2) := by
    simp only [retentionBand, defaultHysteresisParams]
    norm_num
  exact ⟨h, (C1_hysteresis_fsm MState.mid (1/2) 4 h).2.2.2⟩

/-- C2: configuration validation happens once, before the pipeline: a
config whose motion weights miss 1.0 by more than 0.01, whose smoothing
method is neither "ema" nor "window", or whose threshold_high is at most
threshold_low makes the run fail with ConfigError — nothing written,
nonzero exit code, ConfigError on stderr — regardless of the pipeline
outcome; a config violating none of the conditions passes validation and
the run never reports ConfigError. -/
theorem C2_config_validation (c : CoreConfig) (p : PipelineOutcome) :
    (1/100 < |weightSum c.motion_weights - 1| ∨
        ¬ (c.smoothing_method = "ema" ∨ c.smoothing_method = "window") ∨
        c.threshold_high ≤ c.threshold_low →
      runCore c p = { exitCode := 1, wroteOutput := false,
                      stderrError := some CoreError.configError } ∧
      (runCore c p).exitCode ≠ 0) ∧
    (|weightSum c.motion_weights - 1| ≤ 1/100 →
      (c.smoothing_method = "ema" ∨ c.smoothing_method = "window") →
      c.threshold_low < c.threshold_high →
      validateConfig c = none ∧
      (runCore c p).stderrError ≠ some CoreError.configError) := by
  constructor
  · intro hbad
    have hv : validateConfig c = some CoreError.configError := by
      unfold validateConfig
      rcases hbad with h | h | h
      · rw [if_pos h]
      · by_cases h1 : 1/100 < |weightSum c.motion_weights - 1|
        · rw [if_pos h1]
        · rw [if_neg h1, if_pos h]
      · by_cases h1 : 1/100 < |weightSum c.motion_weights - 1|
        · rw [if_pos h1]
        · by_cases h2 : ¬ (c.smoothing_method = "ema" ∨ c.smoothing_method = "window")
          · rw [if_neg h1, if_pos h2]
          · rw [if_neg h1, if_neg h2, if_pos h]
    have hr : runCore c p = ⟨1, false, some CoreError.configError⟩ := by
      unfold runCore
      rw [hv]
    exact ⟨hr, by rw [hr]; simp⟩
  · intro hw hs ht
    have hv : validateConfig c = none := by
      unfold validateConfig
      rw [if_neg (not_lt.mpr hw), if_neg (not_not_intro hs),
        if_neg (not_le.mpr ht)]
    refine ⟨hv, ?_⟩
    unfold runCore
    rw [hv]
    cases hf : p.failure with
    | none => simp
    | some e => simp

/-- Witness for C2: the all-0.3 weights of spec scenario 6 fail with
ConfigError and nothing written; the documented default config passes
validation. -/
theorem C2_config_validation_witness :
    runCore badWeightsConfig ⟨none, true⟩ =
      { exitCode := 1, wroteOutput := false,
        stderrError := some CoreError.configError } ∧
    validateConfig defaultCoreConfig = none := by
  constructor
  · exact ((C2_config_validation badWeightsConfig ⟨none, true⟩).1
      (Or.inl (by
        have h : weightSum badWeightsConfig.motion_weights - 1 = 1/2 := by
          norm_num [weightSum, badWeightsConfig]
        rw [h, abs_of_nonneg (by norm_num : (0:ℚ) ≤ 1/2)]
        norm_num))).1
  · exact ((C2_config_validation defaultCoreConfig ⟨none, true⟩).2
      (by
        have h : weightSum defaultCoreConfig.motion_weights - 1 = 0 := by
          norm_num [weightSum, defaultCoreConfig]
        rw [h, abs_zero]
        norm_num)
      (Or.inl rfl)
      (by norm_num [defaultCoreConfig])).1

/-- C7: for every state sequence the OutputPlan has length equal to the
input frame count and its source indices are monotonically non-decreasing;
HIGH and MID runs change only which source frames are sampled, never the
output count. The two closed evaluations check the emission patterns of
spec scenarios 1 and 2 (MID: 0,0,0,3,3,3,6,6,6; HIGH: 0,0,2,2,4,4). -/
theorem C7_output_plan_invariants (seq : List MState) :
    (buildPlan seq).length = seq.length ∧
    (buildPlan seq).Pairwise (· ≤ ·) ∧
    buildPlan (List.replicate 9 MState.mid) = [0, 0, 0, 3, 3, 3, 6, 6, 6] ∧
    buildPlan (List.replicate 6 MState.high) = [0, 0, 2, 2, 4, 4] := by
  refine ⟨?_, planAux_pairwise _ _, by decide, by decide⟩
  rw [buildPlan, planAux_length, runsOf_sum]

/-- C3: divergence between the defaults the UI submits and the documented
default record. The UI `parameters` object (and its `resetToDefaults`
value) agrees with the documented record on every threshold, timing and
smoothing field it carries, but its motion weights set displacement to 0.2
instead of the documented 0.30 and pose_change to 0.2 instead of the
documented 0.10 (and the UI object carries no smoothing_window key at
all), so the config JSON the UI submits by default differs from the
documented default record. -/
theorem C3_ui_defaults_diverge :
    uiResetParameters = uiDefaultParameters ∧
    uiDefaultParameters.threshold_high = documentedDefaultConfig.threshold_high ∧
    uiDefaultParameters.threshold_low = documentedDefaultConfig.threshold_low ∧
    uiDefaultParameters.hysteresis_margin = documentedDefaultConfig.hysteresis_margin ∧
    uiDefaultParameters.min_duration = documentedDefaultConfig.min_duration ∧
    uiDefaultParameters.smoothing_method = documentedDefaultConfig.smoothing_method ∧
    uiDefaultParameters.smoothing_alpha = documentedDefaultConfig.smoothing_alpha ∧
    uiDefaultParameters.motion_weights.velocity
      = documentedDefaultConfig.motion_weights.velocity ∧
    uiDefaultParameters.motion_weights.acceleration
      = documentedDefaultConfig.motion_weights.acceleration ∧
    uiDefaultParameters.motion_weights.direction_change
      = documentedDefaultConfig.motion_weights.direction_change ∧
    uiDefaultParameters.motion_weights.displacement = 1/5 ∧
    documentedDefaultConfig.motion_weights.displacement = 3/10 ∧
    uiDefaultParameters.motion_weights.pose_change = 1/5 ∧
    documentedDefaultConfig.motion_weights.pose_change = 1/10 ∧
    uiDefaultParameters.motion_weights ≠ documentedDefaultConfig.motion_weights := by
  refine ⟨rfl, rfl, rfl, rfl, rfl, rfl, rfl, ?_, ?_, rfl, ?_, ?_, ?_, ?_, ?_⟩
  · norm_num [uiDefaultParameters, documentedDefaultConfig]
  · norm_num [uiDefaultParameters, documentedDefaultConfig]
  · norm_num [uiDefaultParameters]
  · norm_num [documentedDefaultConfig]
  · norm_num [uiDefaultParameters]
  · norm_num [documentedDefaultConfig]
  · intro h
    have h2 := congrArg MotionWeights.displacement h
    simp only [uiDefaultParameters, documentedDefaultConfig] at h2
    norm_num at h2

/-- C4 counterexample: a backend that exits non-zero but writes a JSON
document with status "success" to stderr makes ProcessVideo return status
"success", not "error" — the claim that the status is "error" and never
"success" for every non-zero exit fails on this input. -/
theorem C4_nonzero_exit_counterexample :
    badStderrExec.err = true ∧
    handleExec badStderrExec =
      { status := "success", outputVideoPath := "", databaseID := "",
        message := "", errorType := "" } ∧
    (handleExec badStderrExec).status ≠ "error" := by
  refine ⟨rfl, ?_, ?_⟩
  · decide
  · decide

/-- C4 (amended): for every request that passes input validation, if the
backend exits non-zero then: whenever captured stderr is non-empty and
unmarshals as a JSON response document, ProcessVideo returns exactly that
document (with "Processing failed: " prefixed to a non-empty message), its
status field included — so the status is "error" exactly when the backend
honors the stderr contract; in every other case ProcessVideo returns a
response with status "error". -/
theorem C4_nonzero_exit_responses (r : ExecResult) (h : r.err = true) :
    (stderrParsedResponse r = none → (handleExec r).status = "error") ∧
    (∀ d, stderrParsedResponse r = some d →
      handleExec r =
        (if d.message = "" then d
         else { d with message := "Processing failed: " ++ d.message })) := by
  constructor
  · intro hp
    simp only [handleExec, h, if_true, hp]
    split_ifs <;> rfl
  · intro d hp
    simp only [handleExec, h, if_true, hp]

/-- Witness for C4 (amended): a backend failing with an empty stderr gets
an "error" response, and a backend failing with the contractual stderr
document gets that document back with the prefixed message. -/
theorem C4_nonzero_exit_responses_witness :
    (handleExec plainFailExec).status = "error" ∧
    handleExec contractStderrExec =
      { status := "error", outputVideoPath := "", databaseID := "",
        message := "Processing failed: too short", errorType := "ShortClip" } := by
  constructor
  · exact (C4_nonzero_exit_responses plainFailExec rfl).1 (by decide)
  · have h := (C4_nonzero_exit_responses contractStderrExec rfl).2
      ⟨"error", "", "", "too short", "ShortClip"⟩ (by decide)
    rw [h]
    decide

/-- C5: when the backend exits 0 and stdout is a non-empty parsable JSON
document with a non-empty status, ProcessVideo returns exactly that
document, except that an empty message on a "success" status is replaced
by "Video processing completed successfully."; empty or unparsable stdout
after a zero exit yields a response with status "error" instead. -/
theorem C5_stdout_success_handling (r : ExecResult) (h : r.err = false) :
    (∀ d, 0 < r.stdout.text.length →
      r.stdout.parsed.bind unmarshalResponse = some d → d.status ≠ "" →
      handleExec r =
        (if d.status = "success" ∧ d.message = ""
         then { d with message := "Video processing completed successfully." }
         else d)) ∧
    (r.stdout.text.length = 0 ∨ r.stdout.parsed.bind unmarshalResponse = none →
      (handleExec r).status = "error") := by
  constructor
  · intro d hlen hp hs
    simp only [handleExec, h, Bool.false_eq_true, if_false]
    rw [if_neg (show ¬ r.stdout.text.length = 0 by omega), hp]
    simp only [if_neg hs]
  · intro hor
    rcases hor with hlen | hp
    · simp only [handleExec, h, Bool.false_eq_true, if_false]
      rw [if_pos hlen]
      rfl
    · simp only [handleExec, h, Bool.false_eq_true, if_false, hp]
      split_ifs <;> rfl

/-- Witness for C5: a zero-exit backend writing a success document with an
empty message gets the document back with the default success message; a
zero-exit backend writing nothing gets an "error" response. -/
theorem C5_stdout_success_handling_witness :
    handleExec successExec =
      { status := "success", outputVideoPath := "/tmp/out.mp4",
        databaseID := "1",
        message := "Video processing completed successfully.",
        errorType := "" } ∧
    (handleExec silentExec).status = "error" := by
  constructor
  · have h := (C5_stdout_success_handling successExec rfl).1
      ⟨"success", "/tmp/out.mp4", "1", "", ""⟩ (by decide) (by decide) (by decide)
    rw [h]
    decide
  · exact (C5_stdout_success_handling silentExec rfl).2 (Or.inl rfl)

theorem goClean_ne_empty (p : String) : goClean p ≠ "" := by
  rw [goClean]
  split_ifs with h1 h2 h3
  · decide
  · intro hc
    have := congrArg String.data hc
    simp at this
  · decide
  · intro hc
    have := congrArg String.data hc
    simp at this
    exact h3 this

theorem goDir_ne_empty (p : String) : goDir p ≠ "" := by
  unfold goDir
  exact goClean_ne_empty _

theorem processVideoModel_run (req : ProcessVideoRequest) (w : World) (env : Env)
    (h1 : req.inputPath ≠ "") (h2 : req.outputPath ≠ "") (h3 : req.config ≠ "")
    (h4 : w.statInput = .ok) (h5 : w.configParses = true) (h6 : w.getwdOk = true)
    (h7 : w.statScript ≠ .notExist)
    (h8 : w.statOutDir = .notExist → w.mkdirOk = true) :
    ∃ ops, processVideoModel req w env =
      (handleExec w.exec,
       ops ++ [FsOp.execOp "uv" (["run", "python"] ++
         buildArgs (goJoin [w.workingDir, "backend", "process_video.py"]) req env)]) := by
  simp only [processVideoModel, if_neg h1, if_neg h2, if_neg h3, h4, h5, h6,
    Bool.true_eq_false, if_false, if_neg h7, if_pos (goDir_ne_empty req.outputPath)]
  by_cases ho : w.statOutDir = StatRes.notExist
  · rw [if_pos ho, h8 ho]
    simp only [if_true, runBackend]
    exact ⟨_, rfl⟩
  · rw [if_neg ho]
    simp only [runBackend]
    exact ⟨_, rfl⟩

/-- C6: for every request that passes input validation, ProcessVideo
invokes the backend script with exactly the arguments --input InputPath,
--output OutputPath, --config Config, in that order (after the
`uv run python <script>` prelude), and appends debug flags exactly when
the PYTHON_DEBUG environment variable is "true". -/
theorem C6_backend_invocation (req : ProcessVideoRequest) (w : World) (env : Env)
    (h1 : req.inputPath ≠ "") (h2 : req.outputPath ≠ "") (h3 : req.config ≠ "")
    (h4 : w.statInput = .ok) (h5 : w.configParses = true) (h6 : w.getwdOk = true)
    (h7 : w.statScript ≠ .notExist)
    (h8 : w.statOutDir = .notExist → w.mkdirOk = true) :
    ∃ ops ds,
      (processVideoModel req w env).2 =
        ops ++ [FsOp.execOp "uv"
          (["run", "python",
            goJoin [w.workingDir, "backend", "process_video.py"],
            "--input", req.inputPath, "--output", req.outputPath,
            "--config", req.config] ++ ds)] ∧
      (ds = [] ↔ env.pythonDebug ≠ "true") := by
  obtain ⟨ops, hops⟩ := processVideoModel_run req w env h1 h2 h3 h4 h5 h6 h7 h8
  by_cases hd : env.pythonDebug = "true"
  · refine ⟨ops,
      ["--debug"]
        ++ (if env.pythonDebugWait = "true" then ["--debug-wait"] else [])
        ++ (if env.pythonDebugPort ≠ "" then
              ["--debug-port", env.pythonDebugPort] else []), ?_, ?_⟩
    · rw [hops]
      simp [buildArgs, if_pos hd]
    · simp [hd]
  · refine ⟨ops, [], ?_, ?_⟩
    · rw [hops]
      simp [buildArgs, if_neg hd]
    · simp [hd]

/-- Witness for C6: on the sample request and world with no debug
variables set, the backend is invoked with exactly the three required
flags and no debug suffix. -/
theorem C6_backend_invocation_witness :
    ∃ ops ds,
      (processVideoModel sampleRequest sampleWorld quietEnv).2 =
        ops ++ [FsOp.execOp "uv"
          (["run", "python",
            goJoin [sampleWorld.workingDir, "backend", "process_video.py"],
            "--input", sampleRequest.inputPath, "--output", sampleRequest.outputPath,
            "--config", sampleRequest.config] ++ ds)] ∧
      (ds = [] ↔ quietEnv.pythonDebug ≠ "true") :=
  C6_backend_invocation sampleRequest sampleWorld quietEnv
    (by decide) (by decide) (by decide) rfl rfl rfl (by decide) (fun _ => rfl)

/-- C8: a request with an empty input path, output path or config string
gets a ValidationError response with an empty operation trace (no stat, no
mkdir, no subprocess); with non-empty fields, a nonexistent input file gets
FileNotFoundError after only the input stat, before any subprocess; with an
existing input file, a config string that is not valid JSON gets
ConfigurationError, again before any subprocess. -/
theorem C8_prepipeline_validation (req : ProcessVideoRequest) (w : World) (env : Env) :
    (req.inputPath = "" ∨ req.outputPath = "" ∨ req.config = "" →
      (processVideoModel req w env).1.status = "error" ∧
      (processVideoModel req w env).1.errorType = "ValidationError" ∧
      (processVideoModel req w env).2 = []) ∧
    (req.inputPath ≠ "" → req.outputPath ≠ "" → req.config ≠ "" →
      w.statInput = .notExist →
      (processVideoModel req w env).1.status = "error" ∧
      (processVideoModel req w env).1.errorType = "FileNotFoundError" ∧
      (processVideoModel req w env).2 = [FsOp.statOp req.inputPath]) ∧
    (req.inputPath ≠ "" → req.outputPath ≠ "" → req.config ≠ "" →
      w.statInput = .ok → w.configParses = false →
      (processVideoModel req w env).1.status = "error" ∧
      (processVideoModel req w env).1.errorType = "ConfigurationError" ∧
      (processVideoModel req w env).2 = [FsOp.statOp req.inputPath]) := by
  refine ⟨?_, ?_, ?_⟩
  · intro hempty
    by_cases hi : req.inputPath = ""
    · simp only [processVideoModel, if_pos hi]
      simp [errResp]
    · by_cases hop : req.outputPath = ""
      · simp only [processVideoModel, if_neg hi, if_pos hop]
        simp [errResp]
      · have hc : req.config = "" := by tauto
        simp only [processVideoModel, if_neg hi, if_neg hop, if_pos hc]
        simp [errResp]
  · intro hi hop hc h4
    simp only [processVideoModel, if_neg hi, if_neg hop, if_neg hc, h4]
    simp [errResp]
  · intro hi hop hc h4 h5
    simp only [processVideoModel, if_neg hi, if_neg hop, if_neg hc, h4,
      if_pos h5]
    simp [errResp]

/-- Witness for C8: an empty input path yields ValidationError with no
operations, a missing input file yields FileNotFoundError after only its
stat, and a non-JSON config yields ConfigurationError. -/
theorem C8_prepipeline_validation_witness :
    ((processVideoModel ⟨"", "o.mp4", "\x7b\x7d"⟩ sampleWorld quietEnv).1.errorType
        = "ValidationError" ∧
      (processVideoModel ⟨"", "o.mp4", "\x7b\x7d"⟩ sampleWorld quietEnv).2 = []) ∧
    ((processVideoModel sampleRequest
        { sampleWorld with statInput := .notExist } quietEnv).1.errorType
        = "FileNotFoundError" ∧
      (processVideoModel sampleRequest
        { sampleWorld with statInput := .notExist } quietEnv).2
        = [FsOp.statOp sampleRequest.inputPath]) ∧
    ((processVideoModel sampleRequest
        { sampleWorld with configParses := false } quietEnv).1.errorType
        = "ConfigurationError" ∧
      (processVideoModel sampleRequest
        { sampleWorld with configParses := false } quietEnv).2
        = [FsOp.statOp sampleRequest.inputPath]) := by
  refine ⟨?_, ?_, ?_⟩
  · have h := (C8_prepipeline_validation ⟨"", "o.mp4", "\x7b\x7d"⟩ sampleWorld
      quietEnv).1 (Or.inl rfl)
    exact ⟨h.2.1, h.2.2⟩
  · have h := (C8_prepipeline_validation sampleRequest
      { sampleWorld with statInput := .notExist } quietEnv).2.1
      (by decide) (by decide) (by decide) rfl
    exact ⟨h.2.1, h.2.2⟩
  · have h := (C8_prepipeline_validation sampleRequest
      { sampleWorld with configParses := false } quietEnv).2.2
      (by decide) (by decide) (by decide) rfl rfl
    exact ⟨h.2.1, h.2.2⟩

/-- C10: with validation passed and the script present, when the parent
directory of the requested output path does not exist, ProcessVideo
recursively creates it (`os.MkdirAll`) before invoking the backend; the
full operation trace shows this `MkdirAll` is the only filesystem
modification ProcessVideo itself performs, and the trace does not depend
on the backend outcome, so the created directory stays in place when the
backend run fails. -/
theorem C10_output_dir_creation (req : ProcessVideoRequest) (w : World) (env : Env)
    (h1 : req.inputPath ≠ "") (h2 : req.outputPath ≠ "") (h3 : req.config ≠ "")
    (h4 : w.statInput = .ok) (h5 : w.configParses = true) (h6 : w.getwdOk = true)
    (h7 : w.statScript ≠ .notExist) (h9 : w.statOutDir = .notExist)
    (h10 : w.mkdirOk = true) :
    (processVideoModel req w env).2 =
      [FsOp.statOp req.inputPath,
       FsOp.statOp (goJoin [w.workingDir, "backend", "process_video.py"]),
       FsOp.statOp (goDir req.outputPath),
       FsOp.mkdirAllOp (goDir req.outputPath),
       FsOp.execOp "uv" (["run", "python"] ++
         buildArgs (goJoin [w.workingDir, "backend", "process_video.py"]) req env)] ∧
    (processVideoModel req w env).2.filter isFsModify =
      [FsOp.mkdirAllOp (goDir req.outputPath)] := by
  have htr : (processVideoModel req w env).2 =
      [FsOp.statOp req.inputPath,
       FsOp.statOp (goJoin [w.workingDir, "backend", "process_video.py"]),
       FsOp.statOp (goDir req.outputPath),
       FsOp.mkdirAllOp (goDir req.outputPath),
       FsOp.execOp "uv" (["run", "python"] ++
         buildArgs (goJoin [w.workingDir, "backend", "process_video.py"]) req env)] := by
    simp only [processVideoModel, if_neg h1, if_neg h2, if_neg h3, h4, h5, h6,
      Bool.true_eq_false, if_false, if_neg h7,
      if_pos (goDir_ne_empty req.outputPath), if_pos h9, h10, if_true,
      runBackend]
    simp
  refine ⟨htr, ?_⟩
  rw [htr]
  rfl

/-- Witness for C10: on the sample request (output
`clips/out/scene01_processed.mp4`) with a missing output directory, the
trace stats the input, script and output directory, creates the output
directory, and runs the backend; the only modifying operation is the
directory creation. -/
theorem C10_output_dir_creation_witness :
    (processVideoModel sampleRequest sampleWorld quietEnv).2 =
      [FsOp.statOp sampleRequest.inputPath,
       FsOp.statOp (goJoin [sampleWorld.workingDir, "backend", "process_video.py"]),
       FsOp.statOp (goDir sampleRequest.outputPath),
       FsOp.mkdirAllOp (goDir sampleRequest.outputPath),
       FsOp.execOp "uv" (["run", "python"] ++
         buildArgs (goJoin [sampleWorld.workingDir, "backend", "process_video.py"])
           sampleRequest quietEnv)] ∧
    (processVideoModel sampleRequest sampleWorld quietEnv).2.filter isFsModify =
      [FsOp.mkdirAllOp (goDir sampleRequest.outputPath)] :=
  C10_output_dir_creation sampleRequest sampleWorld quietEnv
    (by decide) (by decide) (by decide) rfl rfl rfl (by decide) rfl rfl

theorem findExtSplit_sound {l pre ext : List Char}
    (h : findExtSplit l = some (pre, ext)) :
    l = pre ++ '.' :: ext ∧ ext ≠ [] ∧ ext.all extChar = true := by
  induction l generalizing pre ext with
  | nil => simp [findExtSplit] at h
  | cons c rest ih =>
    rw [findExtSplit] at h
    by_cases hc : c = '.' ∧ rest ≠ [] ∧ rest.all extChar
    · rw [if_pos hc] at h
      simp only [Option.some.injEq, Prod.mk.injEq] at h
      obtain ⟨hp, he⟩ := h
      subst hp
      subst he
      exact ⟨by rw [hc.1]; rfl, hc.2.1, hc.2.2⟩
    · rw [if_neg hc] at h
      cases hfs : findExtSplit rest with
      | none => rw [hfs] at h; simp at h
      | some pe =>
        obtain ⟨pre2, ext2⟩ := pe
        rw [hfs] at h
        simp only [Option.some.injEq, Prod.mk.injEq] at h
        obtain ⟨hp, he⟩ := h
        subst hp
        subst he
        obtain ⟨ihl, ihne, ihall⟩ := ih hfs
        exact ⟨by rw [List.cons_append, ihl], ihne, ihall⟩

theorem findExtSplit_complete (base ext : List Char) (hne : ext ≠ [])
    (hall : ext.all extChar = true) :
    findExtSplit (base ++ '.' :: ext) = some (base, ext) := by
  induction base with
  | nil =>
    rw [List.nil_append, findExtSplit, if_pos ⟨rfl, hne, hall⟩]
  | cons c base ih =>
    rw [List.cons_append, findExtSplit, if_neg ?_, ih]
    rintro ⟨-, -, hall2⟩
    have hmem : ('.' : Char) ∈ base ++ '.' :: ext :=
      List.mem_append_right _ (List.mem_cons_self _ _)
    have := List.all_eq_true.mp hall2 _ hmem
    simp [extChar] at this

/-- C9: for every selected file whose name ends in a dot followed by a
non-empty run of characters other than dot and slash, the UI requests an
output path equal to the input path with that final dot-extension replaced
by "_processed.mp4"; for an input path admitting no such decomposition the
requested output path equals the input path itself, so the processed video
would be written over the source file. -/
theorem C9_run_analysis_output_path (base ext : List Char) (s : String) :
    (ext ≠ [] → ext.all extChar = true →
      runAnalysisOutputPath ⟨base ++ '.' :: ext⟩ =
        ⟨base ++ "_processed.mp4".toList⟩) ∧
    ((∀ b e : List Char, e ≠ [] → e.all extChar = true →
        s.toList ≠ b ++ '.' :: e) →
      runAnalysisOutputPath s = s) := by
  constructor
  · intro hne hall
    unfold runAnalysisOutputPath
    have ht : (⟨base ++ '.' :: ext⟩ : String).toList = base ++ '.' :: ext := rfl
    rw [ht, findExtSplit_complete base ext hne hall]
  · intro hno
    unfold runAnalysisOutputPath
    cases hfs : findExtSplit s.toList with
    | none => rfl
    | some pe =>
      obtain ⟨pre, ext2⟩ := pe
      obtain ⟨hl, hne, hall⟩ := findExtSplit_sound hfs
      exact absurd hl (hno pre ext2 hne hall)

/-- Witness for C9: "video.mp4" maps to "video_processed.mp4", while the
extensionless "video" maps to itself. -/
theorem C9_run_analysis_output_path_witness :
    runAnalysisOutputPath ⟨"video".toList ++ '.' :: "mp4".toList⟩ =
      ⟨"video".toList ++ "_processed.mp4".toList⟩ ∧
    runAnalysisOutputPath "video" = "video" := by
  constructor
  · exact (C9_run_analysis_output_path "video".toList "mp4".toList "video").1
      (by decide) (by decide)
  · refine (C9_run_analysis_output_path "video".toList "mp4".toList "video").2 ?_
    intro b e hne hall hcontra
    have hmem : ('.' : Char) ∈ "video".toList := by
      rw [hcontra]
      exact List.mem_append_right _ (List.mem_cons_self _ _)
    exact absurd hmem (by decide)
